import Mathlib

/-!
# Verification of the clinic-dashboard data-access adapters

A shallow embedding of the three adapter hooks of this repository
(`useProfessionals`, `useTodayAppointments`, `useStats`) together with the
fragment of the JavaScript platform they rely on (`Date`, `toISOString`,
`split('T')[0]`, `setDate(1)`) and of the remote store's query semantics
(equality / range filters on ISO-8601 timestamp strings, `single()`,
ordering, counts).  Asynchronous remote calls are modelled by passing the
response (or the table contents) as an explicit argument; each adapter
function returns its result together with the list of store operations it
issued and the list of toasts it raised, so that frame conditions
("no query is issued", "no notification is raised") are statable.
-/

/-! ## The JavaScript date fragment

A JS `Date` holds an absolute instant, milliseconds since the Unix epoch
(`ms : Int`); the local time zone enters only through an offset in minutes
(`off : Int`, the amount added to UTC to obtain local time).
`toISOString` renders the instant's *UTC* proleptic-Gregorian calendar
fields, zero padded.  Civil-calendar conversion uses the standard
days-from-epoch algorithms.
-/

/-- Milliseconds per day. -/
def msPerDay : Int := 86400000

/-- Decimal digit character of `n % 10`. -/
def digit (n : Nat) : Char := Char.ofNat (48 + n % 10)

/-- Two-digit zero-padded decimal rendering (as characters), for `n < 100`. -/
def pad2 (n : Nat) : List Char := [digit (n / 10), digit n]

/-- Three-digit zero-padded decimal rendering, for `n < 1000`. -/
def pad3 (n : Nat) : List Char := [digit (n / 100), digit (n / 10), digit n]

/-- Four-digit zero-padded decimal rendering, for `n < 10000`. -/
def pad4 (n : Nat) : List Char := [digit (n / 1000), digit (n / 100), digit (n / 10), digit n]

/-- Gregorian calendar date `(year, month, day)` of a day count since
1970-01-01 (the civil-from-days algorithm used by JS engines). -/
def civilFromDays (z : Int) : Int × Nat × Nat :=
  let z' := z + 719468
  let era := z' / 146097
  let doe := (z' - era * 146097).toNat
  let yoe := (doe - doe / 1460 + doe / 36524 - doe / 146096) / 365
  let doy := doe - (365 * yoe + yoe / 4 - yoe / 100)
  let mp := (5 * doy + 2) / 153
  let d := doy - (153 * mp + 2) / 5 + 1
  let m := if mp < 10 then mp + 3 else mp - 9
  ((yoe : Int) + era * 400 + (if m ≤ 2 then 1 else 0), m, d)

/-- Day count since 1970-01-01 of a Gregorian calendar date. -/
def daysFromCivil (y : Int) (m d : Nat) : Int :=
  let y' := if m ≤ 2 then y - 1 else y
  let era := y' / 400
  let yoe := (y' - era * 400).toNat
  let mp := if 2 < m then m - 3 else m + 9
  let doy := (153 * mp + 2) / 5 + d - 1
  let doe := yoe * 365 + yoe / 4 - yoe / 100 + doy
  era * 146097 + (doe : Int) - 719468

/-- The characters of the ISO date `YYYY-MM-DD` of a civil date. -/
def isoDateChars (y : Int) (m d : Nat) : List Char :=
  pad4 y.toNat ++ '-' :: pad2 m ++ '-' :: pad2 d

/-- The characters of the ISO time-of-day `hh:mm:ss.mmm` rendering. -/
def isoTimeChars (h mi s msec : Nat) : List Char :=
  pad2 h ++ ':' :: pad2 mi ++ ':' :: pad2 s ++ '.' :: pad3 msec

/-- JS `Date.prototype.toISOString`: the UTC calendar fields of the instant,
rendered `YYYY-MM-DDThh:mm:ss.mmmZ` (years of the modelled instants lie in
`[0, 10000)`). -/
def jsToISOString (ms : Int) : String :=
  String.mk (isoDateChars (civilFromDays (ms / msPerDay)).1 (civilFromDays (ms / msPerDay)).2.1
      (civilFromDays (ms / msPerDay)).2.2 ++
    'T' :: isoTimeChars ((ms % msPerDay).toNat / 3600000) ((ms % msPerDay).toNat / 60000 % 60)
      ((ms % msPerDay).toNat / 1000 % 60) ((ms % msPerDay).toNat % 1000) ++ ['Z'])

/-- The value of `new Date().toISOString().split('T')[0]` (the `hoje` of both hooks):
the first component of a `split` is the longest separator-free prefix. -/
def hojeOf (ms : Int) : String :=
  String.mk ((jsToISOString ms).data.takeWhile (fun c => c != 'T'))

/-- The UTC calendar date of an instant. -/
def jsUtcCivil (ms : Int) : Int × Nat × Nat := civilFromDays (ms / msPerDay)

/-- The local calendar date of an instant, at a local offset of `off`
minutes (local time = UTC + `off` minutes). -/
def jsLocalCivil (ms off : Int) : Int × Nat × Nat :=
  civilFromDays ((ms + off * 60000) / msPerDay)

/-- The effect of `d.setDate(1)` on a `Date` holding instant `ms`: the day-of-month of
the *local* calendar date is set to 1, the local time of day is kept. -/
def setDate1 (ms off : Int) : Int :=
  daysFromCivil (civilFromDays ((ms + off * 60000) / msPerDay)).1
      (civilFromDays ((ms + off * 60000) / msPerDay)).2.1 1 * msPerDay
    + (ms + off * 60000) % msPerDay - off * 60000

/-- The `inicioMes` lower bound of the stats hook's consultations query:
`inicioMes = new Date(); inicioMes.setDate(1); inicioMes.toISOString()`. -/
def inicioMesBound (ms off : Int) : String := jsToISOString (setDate1 ms off)

/-- The instant (epoch milliseconds) of a UTC civil date and time. -/
def mkUtcMs (y : Int) (m d h mi s : Nat) : Int :=
  daysFromCivil y m d * msPerDay + ((h * 3600000 + mi * 60000 + s * 1000 : Nat) : Int)

/-- The ISO timestamp string of a UTC civil date and time (whole seconds). -/
def isoTimestampStr (y : Int) (m d h mi s : Nat) : String :=
  String.mk (isoDateChars y m d ++ 'T' :: isoTimeChars h mi s 0 ++ ['Z'])

/-- Boolean string comparison, the lexicographic order on the character
lists (the order the store's string filters use; `strLtB_eq_true_iff`
below identifies it with `String`'s own order). -/
def strLtB (s t : String) : Bool := decide (List.Lex (· < ·) s.data t.data)

/-- Boolean string comparison `s ≤ t`. -/
def strLeB (s t : String) : Bool := !(strLtB t s)

/-- The `created_at >= inicioMes.toISOString()` filter of the
consultations count query, on the stored timestamp strings. -/
def consultationCounted (bound created : String) : Bool := strLeB bound created

/-! ## Lexicographic order on timestamp strings

The store compares the stored ISO timestamp strings with the usual string
order; `String`'s order is the lexicographic order on its character list
(`String.lt_iff_toList_lt`).  The lemmas below relate that order to
appends and to the numeric value of the zero-padded components.
-/

theorem lex_append_left_cancel {P a b : List Char}
    (h : List.Lex (· < ·) (P ++ a) (P ++ b)) : List.Lex (· < ·) a b := by
  induction P with
  | nil => exact h
  | cons c l ih =>
    cases h with
    | rel hr => exact absurd hr (lt_irrefl c)
    | cons h' => exact ih h'

theorem lex_append_of_lex_of_length {l₁ l₂ : List Char} (a b : List Char)
    (hlen : l₁.length = l₂.length) (h : List.Lex (· < ·) l₁ l₂) :
    List.Lex (· < ·) (l₁ ++ a) (l₂ ++ b) := by
  induction h with
  | nil => simp at hlen
  | rel hr => exact List.Lex.rel hr
  | cons h' ih =>
    simp only [List.length_cons, Nat.succ.injEq] at hlen
    exact List.Lex.cons (ih hlen)

theorem not_lex_append_self (l a : List Char) : ¬ List.Lex (· < ·) (l ++ a) l := by
  induction l with
  | nil => intro h; cases h
  | cons c cs ih =>
    intro h
    cases h with
    | rel hr => exact lt_irrefl c hr
    | cons h' => exact ih h'

theorem string_lt_iff_lex {s t : String} :
    s < t ↔ List.Lex (· < ·) s.data t.data := String.lt_iff_toList_lt

theorem string_le_iff_not_lex {s t : String} :
    s ≤ t ↔ ¬ List.Lex (· < ·) t.data s.data := by
  rw [← not_lt, string_lt_iff_lex]

theorem string_le_self_append (s t : String) : s ≤ s ++ t := by
  rw [string_le_iff_not_lex, String.data_append]
  exact not_lex_append_self s.data t.data

theorem string_append_lt_append (s : String) {a b : String} (h : a < b) :
    s ++ a < s ++ b := by
  rw [string_lt_iff_lex, String.data_append, String.data_append]
  exact List.Lex.append_left _ (string_lt_iff_lex.mp h) s.data

theorem string_append_lt_of_lt_of_length {s t : String} (a b : String)
    (hlen : s.length = t.length) (h : s < t) : s ++ a < t ++ b := by
  rw [string_lt_iff_lex, String.data_append, String.data_append]
  exact lex_append_of_lex_of_length _ _ hlen (string_lt_iff_lex.mp h)

theorem strLtB_eq_true_iff {s t : String} : strLtB s t = true ↔ s < t := by
  rw [strLtB, decide_eq_true_eq]
  exact string_lt_iff_lex.symm

theorem strLeB_eq_true_iff {s t : String} : strLeB s t = true ↔ s ≤ t := by
  rw [strLeB, Bool.not_eq_true', ← Bool.not_eq_true, strLtB_eq_true_iff, not_lt]

theorem digit_lt_digit {a b : Nat} (h : a % 10 < b % 10) : digit a < digit b := by
  have key : ∀ x, x < 10 → ∀ y, y < 10 → x < y →
      Char.ofNat (48 + x) < Char.ofNat (48 + y) := by decide
  exact key (a % 10) (Nat.mod_lt a (by omega)) (b % 10) (Nat.mod_lt b (by omega)) h

theorem digit_inj {a b : Nat} (h : digit a = digit b) : a % 10 = b % 10 := by
  have key : ∀ x, x < 10 → ∀ y, y < 10 →
      Char.ofNat (48 + x) = Char.ofNat (48 + y) → x = y := by decide
  exact key (a % 10) (Nat.mod_lt a (by omega)) (b % 10) (Nat.mod_lt b (by omega)) h

theorem digit_ne_of_not_digit {c : Char} (hc : ∀ x, x < 10 → Char.ofNat (48 + x) ≠ c)
    (n : Nat) : digit n ≠ c :=
  hc (n % 10) (Nat.mod_lt n (by omega))

theorem pad2_lex {a b : Nat} (ha : a < 100) (hb : b < 100) (h : a < b) :
    List.Lex (· < ·) (pad2 a) (pad2 b) := by
  unfold pad2
  rcases Nat.lt_or_ge (a / 10) (b / 10) with h10 | h10
  · exact List.Lex.rel (digit_lt_digit (by omega))
  · have hdiv : a / 10 = b / 10 := by omega
    have hmod : a % 10 < b % 10 := by omega
    rw [hdiv]
    exact List.Lex.cons (List.Lex.rel (digit_lt_digit hmod))

theorem pad2_inj {a b : Nat} (ha : a < 100) (hb : b < 100) (h : pad2 a = pad2 b) :
    a = b := by
  unfold pad2 at h
  simp only [List.cons.injEq, and_true] at h
  have h1 := digit_inj h.1
  have h2 := digit_inj h.2
  omega

/-! ## External collaborators

`AuthContext` supplies `{ user, loading }`; a `Toast` is what the
`Notifier` receives; a `StoreOp` records a query or write issued to the
remote store, so that "no query / no write reaches the store" is statable.
-/

/-- The auth context value `{ user, loading }` (the user reduced to its id). -/
structure AuthState where
  user : Option String
  loading : Bool
deriving DecidableEq, Repr

/-- A toast notification `{ title, description, variant }`. -/
structure Toast where
  title : String
  description : String
  variant : Option String := none
deriving DecidableEq, Repr

/-- JS `error.message || fallback`: an empty message string is falsy in JS. -/
def errDesc (msg fallback : String) : String := if msg = "" then fallback else msg

/-- The `professionals` row data visible through the adapter's interface. -/
structure Professional where
  id : String
  nome : String
  tipo : String
  registro : String
  especialidade : String
  telefone : String
  email : String
  horario_inicio : Option String := none
  horario_fim : Option String := none
  dias_atendimento : Option (List String) := none
  observacoes : Option String := none
  status : Option String := none
deriving DecidableEq, Repr

/-- A `Partial<Professional>`: every field optional, `id` included. -/
structure ProfPatch where
  id : Option String := none
  nome : Option String := none
  tipo : Option String := none
  registro : Option String := none
  especialidade : Option String := none
  telefone : Option String := none
  email : Option String := none
  horario_inicio : Option (Option String) := none
  horario_fim : Option (Option String) := none
  dias_atendimento : Option (Option (List String)) := none
  observacoes : Option (Option String) := none
  status : Option (Option String) := none
deriving DecidableEq, Repr

/-- The store's `update(professionalData)`: each column named in the patch
is overwritten, the others keep their value. -/
def applyPatch (p : ProfPatch) (x : Professional) : Professional where
  id := p.id.getD x.id
  nome := p.nome.getD x.nome
  tipo := p.tipo.getD x.tipo
  registro := p.registro.getD x.registro
  especialidade := p.especialidade.getD x.especialidade
  telefone := p.telefone.getD x.telefone
  email := p.email.getD x.email
  horario_inicio := p.horario_inicio.getD x.horario_inicio
  horario_fim := p.horario_fim.getD x.horario_fim
  dias_atendimento := p.dias_atendimento.getD x.dias_atendimento
  observacoes := p.observacoes.getD x.observacoes
  status := p.status.getD x.status

/-- A stored `professionals` row: the data plus its `user_id` owner column. -/
structure ProfRow where
  data : Professional
  user_id : String
deriving DecidableEq, Repr

/-- An operation issued to the remote store. -/
inductive StoreOp where
  | selectProfessionals (uid : String)
  | selectProfessionalById (id uid : String)
  | insertProfessional (row : ProfRow)
  | updateProfessionals (id uid : String) (p : ProfPatch)
  | deleteProfessionals (id uid : String)
  | countPatients (uid : String)
  | countAppointmentsToday (uid hoje : String)
  | countConsultationsMonth (uid bound : String)
  | selectAppointmentsToday (uid hoje : String)
deriving DecidableEq, Repr

/-- The `eq('id', id).eq('user_id', uid)` row filter. -/
def profKey (id uid : String) (r : ProfRow) : Bool :=
  r.data.id == id && r.user_id == uid

/-! ## The `useProfessionals` adapter

Each operation takes the auth state, the current `professionals` table and
an optional remote error (`some e` models the store reporting failure
`e`), and returns its result, the new table, the issued store operations
and the raised toasts.  Read-only operations return no table.
-/

/-- Operation `getProfessionals()`: list all professionals of the current user,
ordered by name; empty list while auth is loading or absent. -/
def getProfessionals (auth : AuthState) (db : List ProfRow) (remoteErr : Option String) :
    List Professional × List StoreOp × List Toast :=
  if auth.loading then ([], [], [])
  else
    match auth.user with
    | none => ([], [], [])
    | some uid =>
      let op := StoreOp.selectProfessionals uid
      match remoteErr with
      | some e =>
        ([], [op], [⟨"Erro ao carregar profissionais",
          errDesc e "Não foi possível carregar a lista de profissionais", some "destructive"⟩])
      | none =>
        ((((db.filter (fun r => r.user_id == uid)).mergeSort
            (fun a b => strLeB a.data.nome b.data.nome)).map (fun r => r.data)),
          [op], [])

/-- The error message of `.single()` when zero or several rows match. -/
def singleRowErr : String := "JSON object requested, multiple (or no) rows returned"

/-- Operation `getProfessionalById(id)`: the unique professional with this id owned
by the current user; `null` plus an error toast otherwise. -/
def getProfessionalById (auth : AuthState) (db : List ProfRow) (id : String)
    (remoteErr : Option String) : Option Professional × List StoreOp × List Toast :=
  match auth.user with
  | none =>
    (none, [], [⟨"Erro ao carregar profissional", "Usuário não autenticado", some "destructive"⟩])
  | some uid =>
    let op := StoreOp.selectProfessionalById id uid
    let fail := fun (e : String) =>
      (none, [op], [⟨"Erro ao carregar profissional",
        errDesc e "Não foi possível carregar os dados do profissional", some "destructive"⟩])
    match remoteErr with
    | some e => fail e
    | none =>
      match db.filter (profKey id uid) with
      | [r] => (some r.data, [op], [])
      | _ => fail singleRowErr

/-- Operation `createProfessional(data)`: insert `{...data, user_id}`; the store
generates the new row's id (`genId`). -/
def createProfessional (auth : AuthState) (db : List ProfRow) (data : Professional)
    (genId : String) (remoteErr : Option String) :
    Option Professional × List ProfRow × List StoreOp × List Toast :=
  match auth.user with
  | none =>
    (none, db, [],
      [⟨"Erro ao cadastrar profissional", "Usuário não autenticado", some "destructive"⟩])
  | some uid =>
    let row : ProfRow := ⟨{ data with id := genId }, uid⟩
    let op := StoreOp.insertProfessional row
    match remoteErr with
    | some e =>
      (none, db, [op], [⟨"Erro ao cadastrar profissional",
        errDesc e "Não foi possível cadastrar o profissional", some "destructive"⟩])
    | none =>
      (some row.data, db ++ [row], [op],
        [⟨"Profissional cadastrado com sucesso!", data.nome ++ " foi adicionado ao sistema.", none⟩])

/-- Operation `updateProfessional(id, partialData)`: update the row matching id and
owner, then `.select().single()` the updated row. -/
def updateProfessional (auth : AuthState) (db : List ProfRow) (id : String) (p : ProfPatch)
    (remoteErr : Option String) :
    Option Professional × List ProfRow × List StoreOp × List Toast :=
  match auth.user with
  | none =>
    (none, db, [],
      [⟨"Erro ao atualizar profissional", "Usuário não autenticado", some "destructive"⟩])
  | some uid =>
    let op := StoreOp.updateProfessionals id uid p
    match remoteErr with
    | some e =>
      (none, db, [op], [⟨"Erro ao atualizar profissional",
        errDesc e "Não foi possível atualizar os dados do profissional", some "destructive"⟩])
    | none =>
      let db' := db.map (fun r => if profKey id uid r then { r with data := applyPatch p r.data } else r)
      match (db.filter (profKey id uid)).map (fun r => applyPatch p r.data) with
      | [x] =>
        (some x, db', [op],
          [⟨"Profissional atualizado com sucesso!",
            "Os dados de " ++ x.nome ++ " foram atualizados.", none⟩])
      | _ =>
        (none, db', [op], [⟨"Erro ao atualizar profissional",
          errDesc singleRowErr "Não foi possível atualizar os dados do profissional",
          some "destructive"⟩])

/-- Operation `deleteProfessional(id)`: delete the rows matching id and owner; the
store reports success whether or not any row matched. -/
def deleteProfessional (auth : AuthState) (db : List ProfRow) (id : String)
    (remoteErr : Option String) : Bool × List ProfRow × List StoreOp × List Toast :=
  match auth.user with
  | none =>
    (false, db, [],
      [⟨"Erro ao remover profissional", "Usuário não autenticado", some "destructive"⟩])
  | some uid =>
    let op := StoreOp.deleteProfessionals id uid
    match remoteErr with
    | some e =>
      (false, db, [op], [⟨"Erro ao remover profissional",
        errDesc e "Não foi possível remover o profissional", some "destructive"⟩])
    | none =>
      (true, db.filter (fun r => !profKey id uid r), [op],
        [⟨"Profissional removido com sucesso", "O profissional foi removido do sistema.", none⟩])

/-! ## The `useTodayAppointments` adapter -/

/-- An `appointments` row joined with the related patient / professional
names (`patient:patients(nome)`, `professional:professionals(nome)`). -/
structure AppointmentRow where
  id : String
  user_id : String
  data_agendamento : String
  patient_nome : Option String := none
  professional_nome : Option String := none
  tipo : Option String := none
  status : Option String := none
deriving DecidableEq, Repr

/-- The formatted view the hook stores. -/
structure TodayAppointment where
  id : String
  time : String
  patient : String
  doctor : String
  type : String
  status : String
deriving DecidableEq, Repr

/-- JS `x || fallback` on a nullable string column: `null` and the empty
string are both falsy. -/
def strOrElse (x : Option String) (fallback : String) : String :=
  match x with
  | none => fallback
  | some s => if s = "" then fallback else s

/-- The per-row formatting of the hook (`time` comes from the platform's
`new Date(..).toLocaleTimeString('pt-BR', ...)`, passed in as `fmtTime`). -/
def formatApt (fmtTime : String → String) (r : AppointmentRow) : TodayAppointment where
  id := r.id
  time := fmtTime r.data_agendamento
  patient := strOrElse r.patient_nome "Paciente não encontrado"
  doctor := strOrElse r.professional_nome "Profissional não encontrado"
  type := strOrElse r.tipo "Consulta"
  status := strOrElse r.status "confirmado"

/-- The row filter of the today-appointments query:
`eq('user_id', uid).gte('data_agendamento', hoje).lt('data_agendamento', hoje + "T23:59:59")`. -/
def apptPass (hoje uid : String) (r : AppointmentRow) : Bool :=
  r.user_id == uid && strLeB hoje r.data_agendamento
    && strLtB r.data_agendamento (hoje ++ "T23:59:59")

/-- The rows the today-appointments query returns from a table `rows`,
ordered by `data_agendamento` ascending. -/
def todayRows (hoje uid : String) (rows : List AppointmentRow) : List AppointmentRow :=
  (rows.filter (apptPass hoje uid)).mergeSort
    (fun a b => strLeB a.data_agendamento b.data_agendamento)

/-- The component-local state of the hook. -/
structure ApptsState where
  appointments : List TodayAppointment
  loading : Bool
deriving DecidableEq, Repr

/-- Function `loadTodayAppointments` (the hook's `refresh()`): bails out before any
query when the user is absent or auth is loading; on success stores the
formatted query result; on a query error stores the empty list.  `ms` is
the current instant, `resp` the store's response (`.error` a failed
query, `.ok` the current `appointments` table the query runs against). -/
def loadTodayAppointments (auth : AuthState) (st : ApptsState) (ms : Int)
    (resp : Except String (List AppointmentRow)) (fmtTime : String → String) :
    ApptsState × List StoreOp :=
  if auth.user.isNone || auth.loading then (st, [])
  else
    let uid := auth.user.getD ""
    let op := StoreOp.selectAppointmentsToday uid (hojeOf ms)
    match resp with
    | .error _ => ({ appointments := [], loading := false }, [op])
    | .ok rows =>
      ({ appointments := (todayRows (hojeOf ms) uid rows).map (formatApt fmtTime),
         loading := false }, [op])

/-- The hook's `useEffect` on `[user, authLoading]` (the listing with the
signed-out branch, `useTodayAppointments.tsx` lines 141-151): load when a
user is resolved, reset to empty and `loading = false` when auth has
resolved with no user, do nothing while auth is still loading. -/
def apptsAuthEffect (auth : AuthState) (st : ApptsState) (ms : Int)
    (resp : Except String (List AppointmentRow)) (fmtTime : String → String) :
    ApptsState × List StoreOp :=
  if auth.user.isSome && !auth.loading then
    loadTodayAppointments auth st ms resp fmtTime
  else if !auth.loading && auth.user.isNone then
    ({ appointments := [], loading := false }, [])
  else (st, [])

/-! ## The `useStats` adapter -/

/-- The fixed-shape statistics object. -/
structure DashboardStats where
  pacientesCadastrados : Nat
  agendamentosHoje : Nat
  consultasMes : Nat
  taxaOcupacao : Int
  limitePacientes : Nat
  limiteAgendamentos : Nat
  limiteConsultas : Nat
deriving DecidableEq, Repr

/-- The initial stats value of the hook. -/
def statsInit : DashboardStats where
  pacientesCadastrados := 0
  agendamentosHoje := 0
  consultasMes := 0
  taxaOcupacao := 0
  limitePacientes := 50
  limiteAgendamentos := 10
  limiteConsultas := 100

/-- The component-local state of the stats hook. -/
structure StatsState where
  stats : DashboardStats
  loading : Bool
deriving DecidableEq, Repr

/-- A resolved count-query response `{ count, error }`; the hook
destructures only `count`. -/
structure CountResp where
  count : Option Nat := none
  error : Option String := none
deriving DecidableEq, Repr

/-- A count-query response is failing when the store set its `error`. -/
def respFailing (r : Except String CountResp) : Prop :=
  match r with
  | .error _ => True
  | .ok c => c.error ≠ none

/-- JS `Math.round`: half-up rounding. -/
def jsRound (q : ℚ) : Int := ⌊q + 1 / 2⌋

/-- Function `loadStats` (the stats hook's `refresh()`): bails out with no query
when the user is absent or auth is loading; otherwise issues the three
count queries in sequence.  A response of `.error e` models the awaited
call *throwing* (caught by the hook's `catch`); a response of
`.ok { count, error }` models a resolved response, whose `error` field
the hook never reads. -/
def loadStats (auth : AuthState) (st : StatsState) (ms off : Int)
    (rp ra rc : Except String CountResp) : StatsState × List StoreOp × List Toast :=
  if auth.user.isNone || auth.loading then (st, [], [])
  else
    let uid := auth.user.getD ""
    let op1 := StoreOp.countPatients uid
    match rp with
    | .error _ => ({ st with loading := false }, [op1], [])
    | .ok p =>
      let op2 := StoreOp.countAppointmentsToday uid (hojeOf ms)
      match ra with
      | .error _ => ({ st with loading := false }, [op1, op2], [])
      | .ok a =>
        let op3 := StoreOp.countConsultationsMonth uid (inicioMesBound ms off)
        match rc with
        | .error _ => ({ st with loading := false }, [op1, op2, op3], [])
        | .ok c =>
          let ag := a.count.getD 0
          let taxa : Int := if ag = 0 then 0 else jsRound ((ag : ℚ) / 10 * 100)
          ({ stats :=
              { pacientesCadastrados := p.count.getD 0
                agendamentosHoje := ag
                consultasMes := c.count.getD 0
                taxaOcupacao := min taxa 100
                limitePacientes := 50
                limiteAgendamentos := 10
                limiteConsultas := 100 },
             loading := false }, [op1, op2, op3], [])

/-- The stats hook's `useEffect` on `[user, authLoading]`: load when a
user is resolved, otherwise do nothing (`useStats.tsx` lines 78-82 have
no signed-out branch). -/
def statsAuthEffect (auth : AuthState) (st : StatsState) (ms off : Int)
    (rp ra rc : Except String CountResp) : StatsState × List StoreOp × List Toast :=
  if auth.user.isSome && !auth.loading then loadStats auth st ms off rp ra rc
  else (st, [], [])

/-! ## Helper lemmas -/

theorem takeWhile_append_cons {p : Char → Bool} {t : Char} (a rest : List Char)
    (ha : ∀ c ∈ a, p c = true) (ht : p t = false) :
    (a ++ t :: rest).takeWhile p = a := by
  induction a with
  | nil => simp [List.takeWhile_cons, ht]
  | cons c a' ih =>
    have hc : p c = true := ha c (List.mem_cons_self c a')
    simp only [List.cons_append, List.takeWhile_cons, hc, if_true, List.cons.injEq, true_and]
    exact ih (fun x hx => ha x (List.mem_cons_of_mem c hx))

theorem digit_ne_T (n : Nat) : digit n ≠ 'T' :=
  digit_ne_of_not_digit (by decide) n

theorem isoDateChars_ne_T (y : Int) (m d : Nat) :
    ∀ c ∈ isoDateChars y m d, (c != 'T') = true := by
  intro c hc
  rw [bne_iff_ne]
  intro hcT
  subst hcT
  have h1 : ∀ x : Nat, ('T' = digit x) = False :=
    fun x => eq_false (fun he => digit_ne_T x he.symm)
  have h2 : ('T' = '-') = False := by decide
  simp only [isoDateChars, pad4, pad2, List.mem_append, List.mem_cons,
    List.not_mem_nil, h1, h2, or_false, false_or, or_self] at hc

theorem jsRound_nat_tenth (n : Nat) : jsRound ((n : ℚ) / 10 * 100) = 10 * n := by
  unfold jsRound
  have h : ((n : ℚ) / 10 * 100 + 1 / 2) = ((10 * (n : ℤ) : ℤ) : ℚ) + (1 / 2 : ℚ) := by
    push_cast; ring
  rw [h, Int.floor_int_add]
  have h0 : ⌊(1 / 2 : ℚ)⌋ = 0 := by
    rw [Int.floor_eq_zero_iff, Set.mem_Ico]
    norm_num
  rw [h0]
  omega

theorem filter_eq_nil_of_map_update {α : Type} (P : α → Bool) (g : α → α) (l : List α)
    (h : l.filter P = []) :
    (l.map (fun r => if P r then g r else r)).filter P = [] := by
  rw [List.filter_eq_nil_iff] at h ⊢
  intro b hb
  rcases List.mem_map.mp hb with ⟨r, hr, hrb⟩
  have hPr := h r hr
  rw [if_neg hPr] at hrb
  subst hrb
  exact hPr

theorem filter_map_update_singleton {α : Type} (P : α → Bool) (g : α → α) (l : List α)
    (row : α) (h : l.filter P = [row]) (hg : P (g row) = true) :
    (l.map (fun r => if P r then g r else r)).filter P = [g row] := by
  induction l with
  | nil => simp at h
  | cons a t ih =>
    by_cases hPa : P a = true
    · rw [List.filter_cons_of_pos hPa, List.cons.injEq] at h
      obtain ⟨ha, ht⟩ := h
      subst ha
      simp only [List.map_cons, if_pos hPa]
      rw [List.filter_cons_of_pos hg, filter_eq_nil_of_map_update P g t ht]
    · rw [List.filter_cons_of_neg hPa] at h
      simp only [List.map_cons, if_neg hPa]
      rw [List.filter_cons_of_neg hPa]
      exact ih h

/-- A sample professional used by concrete witnesses. -/
def profA : Professional where
  id := "p1"
  nome := "Ana"
  tipo := "medico"
  registro := "CRM 1111"
  especialidade := "clinica"
  telefone := "11 99999-0000"
  email := "ana@example.com"

/-- A prior stats value used by concrete witnesses and counterexamples. -/
def stats5 : DashboardStats := { statsInit with pacientesCadastrados := 5 }

/-! ## Claim theorems -/

/-- C1 (amended): the stats refresh raises no user notification on any
input, and when a count call fails by throwing (a rejected awaited call,
the only failure the hook's `catch` sees) the previously held stats value
is unchanged.  (A failure reported inside a *resolved* response is
ignored by the hook — see the counterexample — so the original claim,
quantified over every failing response, is false.) -/
theorem stats_silent_and_stale_on_thrown (auth : AuthState) (st : StatsState) (ms off : Int)
    (rp ra rc : Except String CountResp) :
    (loadStats auth st ms off rp ra rc).2.2 = [] ∧
    (((∃ e, rp = .error e) ∨ (∃ e, ra = .error e) ∨ (∃ e, rc = .error e)) →
      (loadStats auth st ms off rp ra rc).1.stats = st.stats) := by
  obtain ⟨u, l⟩ := auth
  cases u <;> cases l <;> cases rp <;> cases ra <;> cases rc <;> simp [loadStats]

/-- C1 witness: a refresh whose first count call throws keeps the prior
stats and raises no toast. -/
theorem stats_silent_and_stale_on_thrown_witness :
    (loadStats ⟨some "u1", false⟩ ⟨stats5, true⟩ 0 0 (.error "net down") (.ok {}) (.ok {})).2.2
        = [] ∧
    (loadStats ⟨some "u1", false⟩ ⟨stats5, true⟩ 0 0 (.error "net down") (.ok {}) (.ok {})).1.stats
        = stats5 := by
  have h := stats_silent_and_stale_on_thrown ⟨some "u1", false⟩ ⟨stats5, true⟩ 0 0
    (.error "net down") (.ok {}) (.ok {})
  exact ⟨h.1, h.2 (Or.inl ⟨"net down", rfl⟩)⟩

/-- C1 counterexample: the hook destructures only `count` from a resolved
response and never reads `error`, so a query failure reported in the
response (`count = null`, `error` set) is treated as a count of 0 and the
previously held stats value is overwritten — refuting the claim that the
stats object is unchanged under every failing count response. -/
theorem stats_overwritten_on_error_response :
    ¬ ((loadStats ⟨some "u1", false⟩ ⟨stats5, false⟩ 0 0
        (.ok ⟨none, some "permission denied"⟩) (.ok ⟨some 0, none⟩)
        (.ok ⟨some 0, none⟩)).1.stats = stats5) := by
  decide

/-- C4 (amended): when authentication resolves with no user, the
appointments hook resets its sequence to empty with `loading = false` and
issues no query, while the stats hook's effect does nothing at all: its
state — in particular its `loading` flag — is left unchanged (it is not
set to `false` as the original claim states). -/
theorem signout_resets_appointments_only (stA : ApptsState) (stS : StatsState) (ms off : Int)
    (resp : Except String (List AppointmentRow)) (fmtTime : String → String)
    (rp ra rc : Except String CountResp) :
    apptsAuthEffect ⟨none, false⟩ stA ms resp fmtTime
        = ({ appointments := [], loading := false }, []) ∧
    statsAuthEffect ⟨none, false⟩ stS ms off rp ra rc = (stS, [], []) :=
  ⟨rfl, rfl⟩

/-- C4 counterexample: on the signed-out transition the stats hook's
`loading` flag does not become `false`: its effect has no signed-out
branch, so a prior `loading = true` persists. -/
theorem signout_stats_loading_not_false :
    ¬ ((statsAuthEffect ⟨none, false⟩ ⟨statsInit, true⟩ 0 0
        (.ok {}) (.ok {}) (.ok {})).1.loading = false) := by
  decide

/-- C5: with no resolved authenticated user, `list()` returns the empty
sequence, `getById`, `create` and `update` return `null`, `delete`
returns `false`, and no operation — in particular no insert, update or
delete — reaches the remote store (the table is also left unchanged). -/
theorem prof_unauthenticated_noop (auth : AuthState) (db : List ProfRow)
    (id genId : String) (data : Professional) (p : ProfPatch)
    (e1 e2 e3 e4 e5 : Option String) (h : auth.user = none) :
    getProfessionals auth db e1 = ([], [], []) ∧
    (getProfessionalById auth db id e2).1 = none ∧
    (getProfessionalById auth db id e2).2.1 = [] ∧
    (createProfessional auth db data genId e3).1 = none ∧
    (createProfessional auth db data genId e3).2.1 = db ∧
    (createProfessional auth db data genId e3).2.2.1 = [] ∧
    (updateProfessional auth db id p e4).1 = none ∧
    (updateProfessional auth db id p e4).2.1 = db ∧
    (updateProfessional auth db id p e4).2.2.1 = [] ∧
    (deleteProfessional auth db id e5).1 = false ∧
    (deleteProfessional auth db id e5).2.1 = db ∧
    (deleteProfessional auth db id e5).2.2.1 = [] := by
  obtain ⟨u, l⟩ := auth
  subst h
  cases l <;>
    simp [getProfessionals, getProfessionalById, createProfessional, updateProfessional,
      deleteProfessional]

/-- C5 witness: a concrete unauthenticated call of each operation. -/
theorem prof_unauthenticated_noop_witness :
    getProfessionals ⟨none, false⟩ [⟨profA, "u1"⟩] none = ([], [], []) ∧
    (getProfessionalById ⟨none, false⟩ [⟨profA, "u1"⟩] "p1" none).1 = none ∧
    (getProfessionalById ⟨none, false⟩ [⟨profA, "u1"⟩] "p1" none).2.1 = [] ∧
    (createProfessional ⟨none, false⟩ [⟨profA, "u1"⟩] profA "p9" none).1 = none ∧
    (createProfessional ⟨none, false⟩ [⟨profA, "u1"⟩] profA "p9" none).2.1 = [⟨profA, "u1"⟩] ∧
    (createProfessional ⟨none, false⟩ [⟨profA, "u1"⟩] profA "p9" none).2.2.1 = [] ∧
    (updateProfessional ⟨none, false⟩ [⟨profA, "u1"⟩] "p1" {} none).1 = none ∧
    (updateProfessional ⟨none, false⟩ [⟨profA, "u1"⟩] "p1" {} none).2.1 = [⟨profA, "u1"⟩] ∧
    (updateProfessional ⟨none, false⟩ [⟨profA, "u1"⟩] "p1" {} none).2.2.1 = [] ∧
    (deleteProfessional ⟨none, false⟩ [⟨profA, "u1"⟩] "p1" none).1 = false ∧
    (deleteProfessional ⟨none, false⟩ [⟨profA, "u1"⟩] "p1" none).2.1 = [⟨profA, "u1"⟩] ∧
    (deleteProfessional ⟨none, false⟩ [⟨profA, "u1"⟩] "p1" none).2.2.1 = [] :=
  prof_unauthenticated_noop ⟨none, false⟩ [⟨profA, "u1"⟩] "p1" "p9" profA {}
    none none none none none rfl

/-- C6: on a successful refresh with today's appointment count `n`, the
computed occupancy rate equals `min(100, round(n / 10 * 100))` and never
exceeds 100. -/
theorem stats_occupancy_clamped (auth : AuthState) (st : StatsState) (ms off : Int)
    (uid : String) (n pc cc : Nat) (hu : auth.user = some uid) (hl : auth.loading = false) :
    (loadStats auth st ms off (.ok ⟨some pc, none⟩) (.ok ⟨some n, none⟩)
        (.ok ⟨some cc, none⟩)).1.stats.taxaOcupacao
      = min 100 (jsRound ((n : ℚ) / 10 * 100)) ∧
    (loadStats auth st ms off (.ok ⟨some pc, none⟩) (.ok ⟨some n, none⟩)
        (.ok ⟨some cc, none⟩)).1.stats.taxaOcupacao ≤ 100 := by
  obtain ⟨u, l⟩ := auth
  subst hu
  subst hl
  have key : (if n = 0 then (0 : Int) else jsRound ((n : ℚ) / 10 * 100)) = 10 * n := by
    by_cases hn : n = 0
    · simp [hn]
    · rw [if_neg hn, jsRound_nat_tenth]
  simp only [loadStats, Option.isNone_some, Bool.false_or, if_false, Option.getD_some,
    Bool.false_eq_true, reduceIte]
  rw [key, jsRound_nat_tenth]
  constructor
  · rw [min_comm]
  · exact min_le_right _ _

/-- C6 witness: fifteen appointments today yield an occupancy rate of
exactly 100, not 150. -/
theorem stats_occupancy_clamped_witness :
    (loadStats ⟨some "u1", false⟩ ⟨statsInit, true⟩ 0 0 (.ok ⟨some 3, none⟩)
        (.ok ⟨some 15, none⟩) (.ok ⟨some 7, none⟩)).1.stats.taxaOcupacao = 100 := by
  have h := stats_occupancy_clamped ⟨some "u1", false⟩ ⟨statsInit, true⟩ 0 0 "u1" 15 3 7 rfl rfl
  rw [h.1, jsRound_nat_tenth]
  decide

/-- C9: an authenticated `delete(id)` whose remote call reports no error
returns `true` and raises the success toast — the adapter cannot tell a
deletion that matched no row from a successful one. -/
theorem delete_reports_success (auth : AuthState) (db : List ProfRow)
    (id uid : String) (h : auth.user = some uid) :
    (deleteProfessional auth db id none).1 = true ∧
    (deleteProfessional auth db id none).2.2.2 =
      [⟨"Profissional removido com sucesso", "O profissional foi removido do sistema.", none⟩] := by
  obtain ⟨u, l⟩ := auth
  subst h
  simp [deleteProfessional]

/-- C9 witness: deleting an id that matches no row of the table still
returns `true` with the success toast. -/
theorem delete_reports_success_witness :
    (deleteProfessional ⟨some "u1", false⟩ [] "no-such-id" none).1 = true ∧
    (deleteProfessional ⟨some "u1", false⟩ [] "no-such-id" none).2.2.2 =
      [⟨"Profissional removido com sucesso", "O profissional foi removido do sistema.", none⟩] :=
  delete_reports_success ⟨some "u1", false⟩ [] "no-such-id" "u1" rfl

/-- C10: a manual `refresh()` of the today-appointments hook while the
user is absent or auth is still loading returns before any query and
leaves the hook state — appointments and loading flag — untouched. -/
theorem appts_refresh_noop_unauthenticated (auth : AuthState) (st : ApptsState) (ms : Int)
    (resp : Except String (List AppointmentRow)) (fmtTime : String → String)
    (h : auth.user = none ∨ auth.loading = true) :
    loadTodayAppointments auth st ms resp fmtTime = (st, []) := by
  unfold loadTodayAppointments
  rcases h with h | h <;> simp [h]

/-- C10 witness: a concrete signed-out manual refresh with a nonempty
prior state returns it unchanged and issues nothing. -/
theorem appts_refresh_noop_unauthenticated_witness :
    loadTodayAppointments ⟨none, false⟩
        ⟨[⟨"a1", "09:00", "Bia", "Ana", "Consulta", "confirmado"⟩], true⟩ 0 (.ok [])
        (fun s => s)
      = (⟨[⟨"a1", "09:00", "Bia", "Ana", "Consulta", "confirmado"⟩], true⟩, []) :=
  appts_refresh_noop_unauthenticated ⟨none, false⟩
    ⟨[⟨"a1", "09:00", "Bia", "Ana", "Consulta", "confirmado"⟩], true⟩ 0 (.ok [])
    (fun s => s) (Or.inl rfl)

/-- The ISO rendering of the UTC calendar date of an instant. -/
def utcDateStr (ms : Int) : String :=
  String.mk (isoDateChars (jsUtcCivil ms).1 (jsUtcCivil ms).2.1 (jsUtcCivil ms).2.2)

/-- The ISO rendering of the local calendar date of an instant. -/
def localDateStr (ms off : Int) : String :=
  String.mk (isoDateChars (jsLocalCivil ms off).1 (jsLocalCivil ms off).2.1
    (jsLocalCivil ms off).2.2)

/-- C3 (amended): the date string both hooks use as the lower bound of
the appointment window is the *UTC* calendar date of the moment
`refresh()` runs (`toISOString` renders UTC), not the caller's local
date; the two coincide only when the local offset does not shift the
day. -/
theorem hoje_is_utc_date (ms : Int) : hojeOf ms = utcDateStr ms := by
  unfold hojeOf utcDateStr jsUtcCivil
  rw [show (jsToISOString ms).data
      = isoDateChars (civilFromDays (ms / msPerDay)).1
          (civilFromDays (ms / msPerDay)).2.1
          (civilFromDays (ms / msPerDay)).2.2 ++
        'T' :: (isoTimeChars ((ms % msPerDay).toNat / 3600000)
            ((ms % msPerDay).toNat / 60000 % 60)
            ((ms % msPerDay).toNat / 1000 % 60)
            ((ms % msPerDay).toNat % 1000) ++ ['Z']) from rfl]
  rw [takeWhile_append_cons _ _ (isoDateChars_ne_T _ _ _) (by decide)]

/-- C3 counterexample: at the instant 1970-01-02T01:00Z in a zone three
hours behind UTC (local time 1970-01-01T22:00), the hooks' date string is
the UTC date "1970-01-02", not the local calendar date "1970-01-01" —
refuting the claim that the bound equals the caller's local date. -/
theorem hoje_not_local_date : hojeOf 90000000 ≠ localDateStr 90000000 (-180) := by
  decide

/-- C7: the today-appointments window is half-open under the
lexicographic string order of the query filters: an appointment of the
current user at exactly `today ++ "T23:59:59"` is excluded, one at
`today ++ "T00:00:00"` is included, and one on any lexicographically
later same-length date (in particular the next day) is excluded. -/
theorem today_window_half_open (ms : Int) (uid : String) (rows : List AppointmentRow)
    (r1 r2 r3 : AppointmentRow) (d2 sfx : String)
    (h1 : r1.data_agendamento = hojeOf ms ++ "T23:59:59")
    (h2d : r2.data_agendamento = hojeOf ms ++ "T00:00:00")
    (h2u : r2.user_id = uid) (h2m : r2 ∈ rows)
    (h3 : r3.data_agendamento = d2 ++ sfx)
    (hlen : (hojeOf ms).length = d2.length) (hlt : hojeOf ms < d2) :
    r1 ∉ todayRows (hojeOf ms) uid rows ∧ r2 ∈ todayRows (hojeOf ms) uid rows ∧
      r3 ∉ todayRows (hojeOf ms) uid rows := by
  have mem_today : ∀ r : AppointmentRow, r ∈ todayRows (hojeOf ms) uid rows ↔
      r ∈ rows ∧ apptPass (hojeOf ms) uid r = true := by
    intro r
    unfold todayRows
    rw [List.mem_mergeSort, List.mem_filter]
  refine ⟨?_, ?_, ?_⟩
  · rw [mem_today]
    rintro ⟨-, hpass⟩
    unfold apptPass at hpass
    rw [h1] at hpass
    simp only [Bool.and_eq_true, strLeB_eq_true_iff, strLtB_eq_true_iff] at hpass
    exact lt_irrefl _ hpass.2
  · rw [mem_today]
    refine ⟨h2m, ?_⟩
    unfold apptPass
    rw [h2d, h2u]
    simp only [Bool.and_eq_true, strLeB_eq_true_iff, strLtB_eq_true_iff,
      beq_self_eq_true, true_and]
    exact ⟨string_le_self_append _ _,
      string_append_lt_append _ (string_lt_iff_lex.mpr (by decide))⟩
  · rw [mem_today]
    rintro ⟨-, hpass⟩
    unfold apptPass at hpass
    rw [h3] at hpass
    simp only [Bool.and_eq_true, strLeB_eq_true_iff, strLtB_eq_true_iff] at hpass
    exact lt_asymm (string_append_lt_of_lt_of_length "T23:59:59" sfx hlen hlt) hpass.2

/-- An appointment row at today 23:59:59 (1970-01-01), for the witness. -/
def aptA : AppointmentRow where
  id := "a1"
  user_id := "u1"
  data_agendamento := "1970-01-01T23:59:59"

/-- An appointment row at today 00:00:00 (1970-01-01), for the witness. -/
def aptB : AppointmentRow where
  id := "a2"
  user_id := "u1"
  data_agendamento := "1970-01-01T00:00:00"

/-- An appointment row on the next day (1970-01-02), for the witness. -/
def aptC : AppointmentRow where
  id := "a3"
  user_id := "u1"
  data_agendamento := "1970-01-02T10:00:00"

/-- C7 witness: the three boundary rows at the concrete date 1970-01-01. -/
theorem today_window_half_open_witness :
    aptA ∉ todayRows (hojeOf 0) "u1" [aptA, aptB, aptC] ∧
    aptB ∈ todayRows (hojeOf 0) "u1" [aptA, aptB, aptC] ∧
    aptC ∉ todayRows (hojeOf 0) "u1" [aptA, aptB, aptC] :=
  today_window_half_open 0 "u1" [aptA, aptB, aptC] aptA aptB aptC
    "1970-01-02" "T10:00:00" (by decide) (by decide) rfl (by decide)
    (by decide) (by decide) (string_lt_iff_lex.mpr (by decide))

theorem data_mk (l : List Char) : (String.mk l).data = l := rfl

theorem isoTs_lt_of_time_lt (y : Int) (m d : Nat) {h mi s h' mi' s' : Nat}
    (hh : h < 100) (hh' : h' < 100) (hmi : mi < 100) (hmi' : mi' < 100)
    (hs : s < 100) (hs' : s' < 100)
    (hlt : h < h' ∨ (h = h' ∧ (mi < mi' ∨ (mi = mi' ∧ s < s')))) :
    isoTimestampStr y m d h mi s < isoTimestampStr y m d h' mi' s' := by
  rw [string_lt_iff_lex]
  unfold isoTimestampStr
  rw [data_mk, data_mk]
  simp only [List.append_assoc, List.cons_append]
  apply List.Lex.append_left
  apply List.Lex.cons
  unfold isoTimeChars
  simp only [List.append_assoc, List.cons_append]
  rcases hlt with hlt | ⟨rfl, hlt⟩
  · exact lex_append_of_lex_of_length _ _ rfl (pad2_lex hh hh' hlt)
  · apply List.Lex.append_left
    apply List.Lex.cons
    rcases hlt with hlt | ⟨rfl, hlt⟩
    · exact lex_append_of_lex_of_length _ _ rfl (pad2_lex hmi hmi' hlt)
    · apply List.Lex.append_left
      apply List.Lex.cons
      exact lex_append_of_lex_of_length _ _ rfl (pad2_lex hs hs' hlt)

theorem isoTs_le_iff (y : Int) (m d : Nat) {h mi s h' mi' s' : Nat}
    (hh : h < 100) (hh' : h' < 100) (hmi : mi < 100) (hmi' : mi' < 100)
    (hs : s < 100) (hs' : s' < 100) :
    isoTimestampStr y m d h mi s ≤ isoTimestampStr y m d h' mi' s' ↔
      (h < h' ∨ (h = h' ∧ (mi < mi' ∨ (mi = mi' ∧ s ≤ s')))) := by
  constructor
  · intro hle
    by_contra hnot
    have hrev : h' < h ∨ (h' = h ∧ (mi' < mi ∨ (mi' = mi ∧ s' < s))) := by omega
    exact not_le.mpr (isoTs_lt_of_time_lt y m d hh' hh hmi' hmi hs' hs hrev) hle
  · intro htriple
    have hcases : (h < h' ∨ (h = h' ∧ (mi < mi' ∨ (mi = mi' ∧ s < s')))) ∨
        (h = h' ∧ mi = mi' ∧ s = s') := by omega
    rcases hcases with hstrict | ⟨rfl, rfl, rfl⟩
    · exact le_of_lt (isoTs_lt_of_time_lt y m d hh hh' hmi hmi' hs hs' hstrict)
    · exact le_refl _

theorem inicioMesBound_utc (y : Int) (m d h mi s : Nat)
    (hh : h < 24) (hmi : mi < 60) (hs : s < 60)
    (hrt : civilFromDays (daysFromCivil y m d) = (y, m, d))
    (hrt1 : civilFromDays (daysFromCivil y m 1) = (y, m, 1)) :
    inicioMesBound (mkUtcMs y m d h mi s) 0 = isoTimestampStr y m 1 h mi s := by
  have hsd : setDate1 (mkUtcMs y m d h mi s) 0
      = daysFromCivil y m 1 * msPerDay + ((h * 3600000 + mi * 60000 + s * 1000 : Nat) : Int) := by
    unfold setDate1 mkUtcMs
    have h1 : (daysFromCivil y m d * msPerDay
          + ((h * 3600000 + mi * 60000 + s * 1000 : Nat) : Int) + 0 * 60000) / msPerDay
        = daysFromCivil y m d := by
      unfold msPerDay
      omega
    have h2 : (daysFromCivil y m d * msPerDay
          + ((h * 3600000 + mi * 60000 + s * 1000 : Nat) : Int) + 0 * 60000) % msPerDay
        = ((h * 3600000 + mi * 60000 + s * 1000 : Nat) : Int) := by
      unfold msPerDay
      omega
    rw [h1, h2, hrt]
    simp
  unfold inicioMesBound
  rw [hsd]
  unfold jsToISOString
  have h1 : (daysFromCivil y m 1 * msPerDay
        + ((h * 3600000 + mi * 60000 + s * 1000 : Nat) : Int)) / msPerDay
      = daysFromCivil y m 1 := by
    unfold msPerDay
    omega
  have h2 : (daysFromCivil y m 1 * msPerDay
        + ((h * 3600000 + mi * 60000 + s * 1000 : Nat) : Int)) % msPerDay
      = ((h * 3600000 + mi * 60000 + s * 1000 : Nat) : Int) := by
    unfold msPerDay
    omega
  rw [h1, h2, hrt1, Int.toNat_natCast]
  have e1 : (h * 3600000 + mi * 60000 + s * 1000) / 3600000 = h := by omega
  have e2 : (h * 3600000 + mi * 60000 + s * 1000) / 60000 % 60 = mi := by omega
  have e3 : (h * 3600000 + mi * 60000 + s * 1000) / 1000 % 60 = s := by omega
  have e4 : (h * 3600000 + mi * 60000 + s * 1000) % 1000 = 0 := by omega
  rw [e1, e2, e3, e4]
  rfl

/-- C2 (amended): the consultations-this-month query's lower bound is the
refresh moment with its day-of-month set to 1 and its *time of day kept*
(`setDate(1)` does not reset the time).  Hence, at a refresh moment on
day `d` of the month at time `(h, mi, s)` (UTC zone), a consultation
created on day 1 of that month at time `(h', mi', s')` is counted if and
only if its time of day is at or after the refresh's time of day — not
"at any time on day 1" as the original claim states. -/
theorem month_query_counts_day1_iff_time_of_day (y : Int) (m d h mi s h' mi' s' : Nat)
    (hh : h < 24) (hmi : mi < 60) (hs : s < 60)
    (hh' : h' < 24) (hmi' : mi' < 60) (hs' : s' < 60)
    (hrt : civilFromDays (daysFromCivil y m d) = (y, m, d))
    (hrt1 : civilFromDays (daysFromCivil y m 1) = (y, m, 1)) :
    consultationCounted (inicioMesBound (mkUtcMs y m d h mi s) 0)
        (isoTimestampStr y m 1 h' mi' s') = true
      ↔ (h < h' ∨ (h = h' ∧ (mi < mi' ∨ (mi = mi' ∧ s ≤ s')))) := by
  rw [inicioMesBound_utc y m d h mi s hh hmi hs hrt hrt1]
  rw [consultationCounted, strLeB_eq_true_iff]
  exact isoTs_le_iff y m 1 (by omega) (by omega) (by omega) (by omega) (by omega) (by omega)

/-- C2 witness: at a refresh on 1970-01-05 12:00:00Z, a consultation
created 1970-01-01 13:00:00 is counted (its time of day is past noon). -/
theorem month_query_counts_day1_iff_time_of_day_witness :
    consultationCounted (inicioMesBound (mkUtcMs 1970 1 5 12 0 0) 0)
        (isoTimestampStr 1970 1 1 13 0 0) = true :=
  (month_query_counts_day1_iff_time_of_day 1970 1 5 12 0 0 13 0 0
    (by decide) (by decide) (by decide) (by decide) (by decide) (by decide)
    (by decide) (by decide)).mpr (Or.inl (by decide))

/-- C2 counterexample: at a refresh on 1970-01-05T12:00:00Z
(`mkUtcMs 1970 1 5 12 0 0 = 388800000`), a consultation created on day 1
of the current month at 00:00:00 is *not* counted: the bound is
"1970-01-01T12:00:00.000Z" (time of day kept by `setDate(1)`), refuting
the claim that a consultation created at any time on day 1 is counted. -/
theorem month_query_misses_day1_morning :
    consultationCounted (inicioMesBound 388800000 0) "1970-01-01T00:00:00.000Z" = false := by
  decide

/-- C8 (amended): for an authenticated user owning exactly one row with
the given id, a successful `update(id, patch)` whose patch does not touch
the `id` column, followed by `getById(id)`, returns exactly the patched
record: each field named in the patch holds its new value and every other
field keeps its prior value (`applyPatch`).  (For the `id` field itself
the claim fails — see the counterexample.) -/
theorem update_then_get (auth : AuthState) (uid id : String) (db : List ProfRow)
    (row : ProfRow) (p : ProfPatch) (hu : auth.user = some uid)
    (hmatch : db.filter (profKey id uid) = [row]) (hpid : p.id = none) :
    (updateProfessional auth db id p none).1 = some (applyPatch p row.data) ∧
    (getProfessionalById auth (updateProfessional auth db id p none).2.1 id none).1
      = some (applyPatch p row.data) := by
  obtain ⟨u, l⟩ := auth
  subst hu
  have hProw : profKey id uid row = true := by
    have : row ∈ db.filter (profKey id uid) := by
      rw [hmatch]
      exact List.mem_singleton.mpr rfl
    exact (List.mem_filter.mp this).2
  have hPupd : profKey id uid { row with data := applyPatch p row.data } = true := by
    unfold profKey at hProw ⊢
    simp only [Bool.and_eq_true, beq_iff_eq] at hProw ⊢
    exact ⟨by simp [applyPatch, hpid, hProw.1], hProw.2⟩
  have hdb' : ((db.map (fun r => if profKey id uid r
        then { r with data := applyPatch p r.data } else r)).filter (profKey id uid))
      = [{ row with data := applyPatch p row.data }] :=
    filter_map_update_singleton (profKey id uid)
      (fun r => { r with data := applyPatch p r.data }) db row hmatch hPupd
  constructor
  · unfold updateProfessional
    simp only [hmatch, List.map_cons, List.map_nil]
  · unfold updateProfessional getProfessionalById
    simp only [hmatch, List.map_cons, List.map_nil]
    simp only [hdb']

/-- C8 witness: updating one field (`telefone`) of the only owned row and
reading it back yields the patched record. -/
theorem update_then_get_witness :
    (updateProfessional ⟨some "u1", false⟩ [⟨profA, "u1"⟩] "p1"
        { telefone := some "11 0000-0000" } none).1
      = some (applyPatch { telefone := some "11 0000-0000" } profA) ∧
    (getProfessionalById ⟨some "u1", false⟩
        (updateProfessional ⟨some "u1", false⟩ [⟨profA, "u1"⟩] "p1"
          { telefone := some "11 0000-0000" } none).2.1 "p1" none).1
      = some (applyPatch { telefone := some "11 0000-0000" } profA) :=
  update_then_get ⟨some "u1", false⟩ "u1" "p1" [⟨profA, "u1"⟩] ⟨profA, "u1"⟩
    { telefone := some "11 0000-0000" } rfl (by decide) rfl

/-- C8 counterexample: `Partial<Professional>` includes the `id` field.
Updating `{ id := "p2" }` on the row "p1" succeeds (the update returns
the renamed record), but `getById("p1")` afterwards finds no matching row
and returns `null` — not a record with the field set to its new value as
the claim, quantified over *every* field, requires. -/
theorem update_id_breaks_get :
    (updateProfessional ⟨some "u1", false⟩ [⟨profA, "u1"⟩] "p1" { id := some "p2" } none).1
      = some (applyPatch { id := some "p2" } profA) ∧
    (getProfessionalById ⟨some "u1", false⟩
        (updateProfessional ⟨some "u1", false⟩ [⟨profA, "u1"⟩] "p1"
          { id := some "p2" } none).2.1 "p1" none).1 = none := by
  constructor <;> decide
